/-
Verification of the RHUI layer (src/server/RHUI.py) of the RotorHazard-based
race-timing server: a shallow embedding in Lean 4 of the registry,
snapshot-builder and addressed-dispatch operations, with theorems checking the
specification's claims against the embedded code.

Conventions of the embedding:
* Python lists become `List`, dicts with fixed keys become structures,
  `None`-able values become `Option`.
* The external collaborators (data store `rhdata`, the IMDTabler subprocess,
  time formatting) are passed in as explicit function arguments; `try/except`
  around a subprocess call becomes a `match` on an `Except` result.
* Python's stable `list.sort(key=k)` is embedded as Mathlib's stable
  `List.insertionSort` on the relation `k a ≤ k b`; any stable sort agrees
  extensionally with CPython's Timsort for a fixed key.
* Python truthiness tests on ints/strings/`None` are embedded explicitly
  (`0`, `""` and `None` are falsy).
-/
import Mathlib

namespace RHUI

/-- Presence of the `'nobroadcast'` / `'noself'` keys in the `**params` of an
emit call. -/
structure Params where
  nobroadcast : Bool
  noself : Bool
deriving DecidableEq

/-- Addressing mode a dispatch resolves to: `self._socket.emit(...)` is a
broadcast to all sessions (`ALL`); `emit(..., broadcast=True,
include_self=False)` is `ALL_EXCEPT_CALLER`; a bare request-context
`emit(...)` is `CALLER_ONLY`. -/
inductive Addressing where
  | ALL
  | ALL_EXCEPT_CALLER
  | CALLER_ONLY
deriving DecidableEq

/-- The three-way dispatch pattern shared by `emit_heat_data`,
`emit_class_data`, `emit_format_data` and `emit_pilot_data`:
`if ('nobroadcast' in params): emit(...)`
`elif ('noself' in params): emit(..., broadcast=True, include_self=False)`
`else: self._socket.emit(...)`. -/
def resolveThreeWay (params : Params) : Addressing :=
  if params.nobroadcast then Addressing.CALLER_ONLY
  else if params.noself then Addressing.ALL_EXCEPT_CALLER
  else Addressing.ALL

/-- The two-way dispatch pattern shared by most other emits:
`if ('nobroadcast' in params): emit(...) else: self._socket.emit(...)`. -/
def resolveTwoWay (params : Params) : Addressing :=
  if params.nobroadcast then Addressing.CALLER_ONLY else Addressing.ALL

/-- An outbound socket message: its topic string and the addressing its
dispatch resolved to. -/
structure WireMessage where
  topic : String
  addressing : Addressing
deriving DecidableEq

/- ----------------------------------------------------------------- -/
/- Extension registry: general settings (RHUI.py lines 54-69)         -/
/- ----------------------------------------------------------------- -/

/-- `GeneralSetting` dataclass (RHUI.py lines 970-976). `panel` defaults to
`None` in the source, hence `Option String`. -/
structure GeneralSetting where
  name : String
  label : String
  panel : Option String
  fieldtype : String
  order : Int
deriving DecidableEq

/-- `register_general_setting` (RHUI.py lines 55-58): appends a new
`GeneralSetting` to the registry list and returns the list. -/
def register_general_setting (general_settings : List GeneralSetting)
    (name : String) (label : String) (panel : Option String)
    (fieldtype : String) (order : Int) : List GeneralSetting :=
  general_settings ++ [⟨name, label, panel, fieldtype, order⟩]

/-- The registry obtained by registering the settings of `ds` in order,
starting from the empty registry of `RHUI.__init__`. -/
def registered_general_settings (ds : List GeneralSetting) : List GeneralSetting :=
  ds.foldl (fun acc d =>
    register_general_setting acc d.name d.label d.panel d.fieldtype d.order) []

/-- `get_panel_settings` (RHUI.py lines 64-69): a loop that appends to
`payload` every registered setting whose `panel` equals `name`. -/
def get_panel_settings (general_settings : List GeneralSetting)
    (name : Option String) : List GeneralSetting :=
  general_settings.foldl
    (fun payload setting =>
      if setting.panel = name then payload ++ [setting] else payload) []

/- ----------------------------------------------------------------- -/
/- Heat data: slot ordering (RHUI.py lines 465-516)                   -/
/- ----------------------------------------------------------------- -/

/-- A heat node as read from `rhdata.get_heatNodes_by_heat`, restricted to the
fields `emit_heat_data` copies into a slot (RHUI.py lines 490-497).
`node_index` is nullable in the database. -/
structure HeatNode where
  id : Nat
  node_index : Option Int
  pilot_id : Option Nat
  color : Option String
  method : Int
  seed_rank : Option Nat
  seed_id : Option Nat
deriving DecidableEq

/-- `heatNodeSorter` (RHUI.py lines 482-485):
`if not x.node_index: return -1` / `return x.node_index`.
Python truthiness makes both `None` and `0` falsy, so a node index of `0`
receives the sentinel `-1` exactly like a missing index. -/
def heatNodeSorter (x : HeatNode) : Int :=
  match x.node_index with
  | none => -1
  | some i => if i = 0 then -1 else i

/-- The comparison `heatNodes.sort(key=heatNodeSorter)` sorts by. -/
def heatNodeLE (a b : HeatNode) : Prop :=
  heatNodeSorter a ≤ heatNodeSorter b

instance : DecidableRel heatNodeLE := fun a b =>
  inferInstanceAs (Decidable (heatNodeSorter a ≤ heatNodeSorter b))

instance : IsTotal HeatNode heatNodeLE :=
  ⟨fun _ _ => le_total _ _⟩

instance : IsTrans HeatNode heatNodeLE :=
  ⟨fun _ _ _ h h2 => le_trans h h2⟩

/-- `heatNodes.sort(key=heatNodeSorter)` (RHUI.py line 486): CPython's sort is
stable, embedded as the stable `insertionSort` on `heatNodeLE`. -/
def heatNodes_sorted (heatNodes : List HeatNode) : List HeatNode :=
  heatNodes.insertionSort heatNodeLE

/-- One entry of `current_heat['slots']` (RHUI.py lines 490-498). -/
structure HeatSlot where
  id : Nat
  node_index : Option Int
  pilot_id : Option Nat
  color : Option String
  method : Int
  seed_rank : Option Nat
  seed_id : Option Nat
deriving DecidableEq

/-- The slot dict built from one heat node (RHUI.py lines 490-497). -/
def heatNodeSlot (hn : HeatNode) : HeatSlot :=
  ⟨hn.id, hn.node_index, hn.pilot_id, hn.color, hn.method, hn.seed_rank, hn.seed_id⟩

/-- The `slots` list of one heat in the `emit_heat_data` payload: the heat's
nodes sorted by `heatNodeSorter`, each copied into a slot dict in order
(RHUI.py lines 479-498). -/
def heat_slots (heatNodes : List HeatNode) : List HeatSlot :=
  (heatNodes_sorted heatNodes).map heatNodeSlot

/-- The slot ordering the specification describes, stated from its words for
comparison with the code: null/undefined node indices strictly first (a
sentinel below every real index), then ascending by the real node index. -/
def specNodeLEb (a b : HeatNode) : Bool :=
  match a.node_index, b.node_index with
  | none, _ => true
  | some _, none => false
  | some i, some j => decide (i ≤ j)

/-- Propositional form of `specNodeLEb`. -/
def specNodeLE (a b : HeatNode) : Prop :=
  specNodeLEb a b = true

instance : DecidableRel specNodeLE := fun a b =>
  inferInstanceAs (Decidable (specNodeLEb a b = true))

/-- The slot list the specification's ordering would produce. -/
def spec_heat_slots (heatNodes : List HeatNode) : List HeatSlot :=
  (heatNodes.insertionSort specNodeLE).map heatNodeSlot

/-- Concrete heat node with node index 2. -/
def exNode2 : HeatNode := ⟨1, some 2, some 10, none, 0, none, none⟩

/-- Concrete heat node with a null node index. -/
def exNodeNull : HeatNode := ⟨2, none, some 11, none, 0, none, none⟩

/-- Concrete heat node with node index 0. -/
def exNode0 : HeatNode := ⟨3, some 0, some 12, none, 0, none, none⟩

/- ----------------------------------------------------------------- -/
/- Result-data dispatch (RHUI.py lines 396-412)                       -/
/- ----------------------------------------------------------------- -/

/-- Where the result-data payload is delivered: to one session room, or
broadcast to every session. -/
inductive ResultDelivery where
  | toRoom (sid : Nat)
  | broadcastAll
deriving DecidableEq

/-- `emit_result_data_thread` delivery logic (RHUI.py lines 409-412):
`if 'nobroadcast' in params and sid != None: emit(..., room=sid)`
`else: self._socket.emit('result_data', ...)` — note the `else` branch is a
broadcast to all sessions. -/
def emit_result_data_thread (params : Params) (sid : Option Nat) : ResultDelivery :=
  match sid with
  | some s =>
    if params.nobroadcast then ResultDelivery.toRoom s else ResultDelivery.broadcastAll
  | none => ResultDelivery.broadcastAll

/-- `emit_result_data` (RHUI.py lines 396-401): spawns the thread with
`request.sid` when a request context exists, and with no sid otherwise. -/
def emit_result_data (params : Params) (request_sid : Option Nat) : ResultDelivery :=
  match request_sid with
  | some sid => emit_result_data_thread params (some sid)
  | none => emit_result_data_thread params none

/- ----------------------------------------------------------------- -/
/- Domain events; priority messages; first pass (RHUI.py 110-132,     -/
/- 747-759); pilot-data dispatch side effect (628-635)                -/
/- ----------------------------------------------------------------- -/

/-- The `eventmanager.Evt` kinds triggered in RHUI.py. -/
inductive Evt where
  | MESSAGE_INTERRUPT
  | MESSAGE_STANDARD
  | RACE_FIRST_PASS
deriving DecidableEq

/-- Wire payload of `priority_message` (RHUI.py lines 112-115). -/
structure PriorityMessagePayload where
  message : String
  interrupt : Bool
deriving DecidableEq

/-- Event data of `MESSAGE_INTERRUPT` / `MESSAGE_STANDARD` (RHUI.py lines
120-130): the payload fields plus the originating caller. The source's
`caller=False` default is modelled as `none`. -/
structure MessageEventData where
  message : String
  interrupt : Bool
  caller : Option String
deriving DecidableEq

/-- Observable outcome of one `emit_priority_message` call: the domain events
triggered, the wire payload, and the addressing of the send. -/
structure PriorityEmitResult where
  events : List (Evt × MessageEventData)
  payload : PriorityMessagePayload
  addressing : Addressing
deriving DecidableEq

/-- `emit_priority_message` (RHUI.py lines 110-132): in the `'nobroadcast'`
branch only a caller-addressed send happens; otherwise exactly one of
`MESSAGE_INTERRUPT` / `MESSAGE_STANDARD` is triggered, chosen by the
`interrupt` flag, before the broadcast send. -/
def emit_priority_message (message : String) (interrupt : Bool)
    (caller : Option String) (params : Params) : PriorityEmitResult :=
  let emit_payload : PriorityMessagePayload :=
    { message := message, interrupt := interrupt }
  if params.nobroadcast then
    { events := [], payload := emit_payload, addressing := Addressing.CALLER_ONLY }
  else
    { events := [(if interrupt then Evt.MESSAGE_INTERRUPT else Evt.MESSAGE_STANDARD,
        { message := message, interrupt := interrupt, caller := caller })],
      payload := emit_payload, addressing := Addressing.ALL }

/-- Event data of `RACE_FIRST_PASS`, also the wire payload of
`first_pass_registered` (RHUI.py lines 749-754). -/
structure FirstPassData where
  node_index : Int
deriving DecidableEq

/-- Observable outcome of one `emit_first_pass_registered` call. -/
structure FirstPassResult where
  events : List (Evt × FirstPassData)
  wire_topic : String
  wire_payload : FirstPassData
  addressing : Addressing
deriving DecidableEq

/-- `emit_first_pass_registered` (RHUI.py lines 747-759): triggers
`RACE_FIRST_PASS` with the node index, then sends the payload on the
`first_pass_registered` topic with the two-way addressing. -/
def emit_first_pass_registered (node_idx : Int) (params : Params) : FirstPassResult :=
  { events := [(Evt.RACE_FIRST_PASS, { node_index := node_idx })],
    wire_topic := "first_pass_registered",
    wire_payload := { node_index := node_idx },
    addressing := resolveTwoWay params }

/-- Dispatch of `emit_heat_data` (RHUI.py lines 511-516): topic and resolved
addressing (the payload's slot ordering is modelled by `heat_slots`). -/
def emit_heat_data_dispatch (params : Params) : WireMessage :=
  { topic := "heat_data", addressing := resolveThreeWay params }

/-- Wire messages sent by one `emit_pilot_data` call (RHUI.py lines 628-635):
the pilot-data message with the caller-requested addressing, then the
unconditional `self.emit_heat_data()` call with no parameters. -/
def emit_pilot_data_dispatch (params : Params) : List WireMessage :=
  [{ topic := "pilot_data", addressing := resolveThreeWay params },
   emit_heat_data_dispatch { nobroadcast := false, noself := false }]

/- ----------------------------------------------------------------- -/
/- Phonetic builders (RHUI.py lines 706-745 and 773-786)              -/
/- ----------------------------------------------------------------- -/

/-- A pilot entity as read from `rhdata.get_pilot`, restricted to the fields
the phonetic and pilot-data builders use. -/
structure Pilot where
  id : Nat
  callsign : String
  phonetic : String
  name : String
  team : String
  color : Option String
  active : Bool
deriving DecidableEq

/-- Python truthiness of a nullable string: `None` and `""` are falsy. -/
def pyTruthyStr : Option String → Bool
  | none => false
  | some s => decide (s ≠ "")

/-- Python truthiness of a nullable integer: `None` and `0` are falsy. -/
def pyTruthyInt : Option Int → Bool
  | none => false
  | some i => decide (i ≠ 0)

/-- The `emit_phonetic_data` payload (RHUI.py lines 711-740). The last three
fields are filled from the pilot lookup, the node-frequency fallback, or left
null. -/
structure PhoneticDataPayload where
  lap : Int
  raw_time : Int
  phonetic : String
  team_name : String
  team_laps : Int
  leader_flag : Bool
  node_finished : Bool
  pilot : Option String
  callsign : Option String
  pilot_id : Option Nat
deriving DecidableEq

/-- `emit_phonetic_data` (RHUI.py lines 706-745). `get_pilot` is
`rhdata.get_pilot`; `freqs_b`, `freqs_c`, `freqs_f` are the active profile's
frequency arrays; `fmt_time` is `RHUtils.phonetictime_format` applied with
the configured phonetic format. A `none` result is an uncaught exception
(out-of-range profile index); otherwise the whole payload is produced, with
the pilot fields degraded to the node callsign or to null when the pilot is
absent. Python's short-circuit `and` is preserved: the `c` array is indexed
only when `b[idx]` is truthy, and `f` only when the condition fails. -/
def emit_phonetic_data (get_pilot : Nat → Option Pilot)
    (freqs_b : List (Option String)) (freqs_c : List (Option Int))
    (freqs_f : List Int) (fmt_time : Int → String)
    (pilot_id : Nat) (lap_id : Int) (lap_time : Int)
    (team_name : String) (team_laps : Int)
    (leader_flag : Bool) (node_finished : Bool) (node_index : Option Nat) :
    Option PhoneticDataPayload :=
  let base : PhoneticDataPayload :=
    { lap := lap_id, raw_time := lap_time, phonetic := fmt_time lap_time,
      team_name := team_name, team_laps := team_laps,
      leader_flag := leader_flag, node_finished := node_finished,
      pilot := none, callsign := none, pilot_id := none }
  match get_pilot pilot_id with
  | some pilot =>
    some { base with
      pilot := some pilot.phonetic,
      callsign := some pilot.callsign,
      pilot_id := some pilot.id }
  | none =>
    match node_index with
    | some idx =>
      match freqs_b.get? idx with
      | none => none
      | some b =>
        if pyTruthyStr b then
          match freqs_c.get? idx with
          | none => none
          | some c =>
            if pyTruthyInt c then
              let cs := b.getD "" ++ toString (c.getD 0)
              some { base with pilot := some cs, callsign := some cs }
            else
              match freqs_f.get? idx with
              | none => none
              | some f =>
                some { base with
                  pilot := some (toString f),
                  callsign := some (toString f) }
        else
          match freqs_f.get? idx with
          | none => none
          | some f =>
            some { base with
              pilot := some (toString f),
              callsign := some (toString f) }
    | none => some base

/-- The `emit_phonetic_split` payload (RHUI.py lines 778-782). -/
structure PhoneticSplitPayload where
  pilot_name : String
  split_id : String
  split_time : String
deriving DecidableEq

/-- `emit_phonetic_split` (RHUI.py lines 773-786). The source dereferences
`pilot.phonetic` without a null check, so a missing pilot raises
`AttributeError` before any payload exists — embedded as `none`. Python's
`pilot.phonetic or pilot.callsign` falls back on the empty string. -/
def emit_phonetic_split (get_pilot : Nat → Option Pilot)
    (fmt_time : Int → String) (pilot_id : Nat) (split_id : Int)
    (split_time : Int) : Option PhoneticSplitPayload :=
  match get_pilot pilot_id with
  | some pilot =>
    some { pilot_name := if pilot.phonetic ≠ "" then pilot.phonetic else pilot.callsign,
           split_id := toString (split_id + 1),
           split_time := fmt_time split_time }
  | none => none

/- ----------------------------------------------------------------- -/
/- Pilot data: list construction and sorting (RHUI.py lines 576-635)  -/
/- ----------------------------------------------------------------- -/

/-- `PilotAttribute` dataclass (RHUI.py lines 957-961). -/
structure PilotAttribute where
  name : String
  label : String
  fieldtype : String
deriving DecidableEq

/-- One entry of `pilots_list` (RHUI.py lines 598-614): the fixed base dict,
the merged dynamic attribute values as name-value pairs, and the `color` key
that is present only when the LED manager is enabled. -/
structure PilotRow where
  pilot_id : Nat
  callsign : String
  team : String
  phonetic : String
  name : String
  active : Bool
  team_options : String
  locked : Bool
  attributes : List (String × String)
  color : Option String
deriving DecidableEq

/-- The team-options HTML string built per pilot (RHUI.py lines 589-594). -/
def team_options_str (team_names : List String) (team : String) : String :=
  team_names.foldl (fun opts nm =>
    opts ++ "<option value=\"" ++ nm ++ "\""
      ++ (if nm = team then " selected" else "")
      ++ ">" ++ nm ++ "</option>") ""

/-- The `pilot_data` dict built for one pilot (RHUI.py lines 589-614). -/
def pilot_row (team_names : List String) (attr_vals : List (String × String))
    (led_enabled : Bool) (locked : Bool) (pilot : Pilot) : PilotRow :=
  { pilot_id := pilot.id, callsign := pilot.callsign, team := pilot.team,
    phonetic := pilot.phonetic, name := pilot.name, active := pilot.active,
    team_options := team_options_str team_names pilot.team,
    locked := locked, attributes := attr_vals,
    color := if led_enabled then pilot.color else none }

/-- CPython string comparison: strict lexicographic order on the sequences of
code points. -/
def pyStrLT (a b : String) : Prop :=
  List.Lex (· < ·) a.data b.data

instance : DecidableRel pyStrLT := fun a b =>
  inferInstanceAs (Decidable (List.Lex (· < ·) a.data b.data))

/-- CPython tuple comparison on a pair of strings:
`a <= b` iff `a[0] < b[0]`, or `a[0] == b[0]` and `a[1] <= b[1]`. -/
def strPairLE (a b : String × String) : Prop :=
  pyStrLT a.1 b.1 ∨ (a.1 = b.1 ∧ (pyStrLT a.2 b.2 ∨ a.2 = b.2))

instance : DecidableRel strPairLE := fun a b =>
  inferInstanceAs
    (Decidable (pyStrLT a.1 b.1 ∨ (a.1 = b.1 ∧ (pyStrLT a.2 b.2 ∨ a.2 = b.2))))

/-- The sort key of `emit_pilot_data` (RHUI.py lines 618-621): the pair
`(callsign, name)` when the `pilotSort` option is `'callsign'`, otherwise
`(name, callsign)`. -/
def pilotSortKey (pilotSort : String) (x : PilotRow) : String × String :=
  if pilotSort = "callsign" then (x.callsign, x.name) else (x.name, x.callsign)

/-- The comparison `pilots_list.sort(key=...)` sorts by. -/
def pilotRowLE (pilotSort : String) (a b : PilotRow) : Prop :=
  strPairLE (pilotSortKey pilotSort a) (pilotSortKey pilotSort b)

instance (m : String) : DecidableRel (pilotRowLE m) := fun a b =>
  inferInstanceAs (Decidable (strPairLE (pilotSortKey m a) (pilotSortKey m b)))

/-- The `pilots_list` accumulation loop of `emit_pilot_data` (RHUI.py lines
588-621): each pilot's row is appended, and the accumulated list is re-sorted
(stably, by CPython's Timsort) by the configured key inside the loop body. -/
def emit_pilot_data_pilots (pilotSort : String) (team_names : List String)
    (attr_vals : Nat → List (String × String)) (locked : Nat → Bool)
    (led_enabled : Bool) (pilots : List Pilot) : List PilotRow :=
  pilots.foldl (fun acc p =>
    (acc ++ [pilot_row team_names (attr_vals p.id) led_enabled (locked p.id) p]).insertionSort
      (pilotRowLE pilotSort)) []

/-- Concrete pilot for witnesses. -/
def exPilotAnn : Pilot := ⟨1, "ALF", "alpha", "Ann", "A", none, true⟩

/-- Concrete pilot for witnesses. -/
def exPilotBob : Pilot := ⟨2, "BRV", "bravo", "Bob", "B", none, true⟩

/-- Concrete pilot row for witnesses. -/
def exRowAnn : PilotRow :=
  pilot_row ["A", "B"] [] false false exPilotAnn

/-- Concrete pilot row for witnesses. -/
def exRowBob : PilotRow :=
  pilot_row ["A", "B"] [] false false exPilotBob

/- ----------------------------------------------------------------- -/
/- IMDTabler external tool (RHUI.py lines 856-895)                    -/
/- ----------------------------------------------------------------- -/

/-- `list(OrderedDict.fromkeys(l))`: de-duplicate keeping the first
occurrence of each value, in first-seen order. `seen` accumulates the keys
already inserted. -/
def dedupFirstAux (seen : List Int) : List Int → List Int
  | [] => []
  | x :: xs =>
    if x ∈ seen then dedupFirstAux seen xs
    else x :: dedupFirstAux (seen ++ [x]) xs

/-- `list(OrderedDict.fromkeys(l))` starting from no seen keys. -/
def dedupFirst (l : List Int) : List Int := dedupFirstAux [] l

/-- The frequency-list construction of `emit_imdtabler_rating` (RHUI.py lines
881-885): de-duplicate the first `num_nodes` profile frequency values keeping
first-seen order (`fi_list`), then keep only values `> 0` (`fs_list`). The
source then maps `str` over this list; length and order are unchanged by
that. -/
def imd_fs_list (profile_freqs_f : List Int) (num_nodes : Nat) : List Int :=
  (dedupFirst (profile_freqs_f.take num_nodes)).filter (fun v => decide (0 < v))

/-- Result of `emit_imdtabler_rating`: whether the external jar was invoked,
and the `imd_rating` field of the emitted payload. -/
structure ImdRatingResult where
  invoked : Bool
  imd_rating : Option String
deriving DecidableEq

/-- `emit_imdtabler_rating` (RHUI.py lines 876-895). `jar` is the external
`subprocess.check_output` invocation: `Except.error` is a raised subprocess
exception (non-zero exit, missing binary, timeout), which the source's
`except` clause turns into `imd_val = None` after logging. The jar is invoked
only when the frequency list has at least 3 entries. -/
def emit_imdtabler_rating (jar : List String → Except String String)
    (profile_freqs_f : List Int) (num_nodes : Nat) : ImdRatingResult :=
  let fs_list := (imd_fs_list profile_freqs_f num_nodes).map toString
  if 2 < fs_list.length then
    match jar fs_list with
    | Except.ok s => ⟨true, some s⟩
    | Except.error _ => ⟨true, none⟩
  else ⟨false, none⟩

/-- The payload of `emit_imdtabler_data` (RHUI.py lines 866-870). -/
structure ImdTablerPayload where
  freq_list : String
  table_data : Option String
  version_str : Option String
deriving DecidableEq

/-- `emit_imdtabler_data` (RHUI.py lines 856-874): `imdtabler_data` starts as
`None`, the jar is invoked only for 3+ frequencies, a subprocess exception is
caught and leaves `imdtabler_data = None` after logging, and the payload is
emitted in every case. -/
def emit_imdtabler_data (jar : List String → Except String String)
    (fs_list : List String) (imdtabler_ver : Option String) : ImdTablerPayload :=
  let imdtabler_data : Option String :=
    if 2 < fs_list.length then
      match jar fs_list with
      | Except.ok s => some s
      | Except.error _ => none
    else none
  ⟨" ".intercalate fs_list, imdtabler_data, imdtabler_ver⟩

/- ----------------------------------------------------------------- -/
/- Theorems                                                           -/
/- ----------------------------------------------------------------- -/

/-- Filtering by a value predicate commutes with first-occurrence
de-duplication, as long as the two seen-lists agree on values satisfying the
predicate. -/
theorem filter_dedupFirstAux (p : Int → Bool) :
    ∀ (l s₁ s₂ : List Int), (∀ x, p x = true → (x ∈ s₁ ↔ x ∈ s₂)) →
      (dedupFirstAux s₁ l).filter p = dedupFirstAux s₂ (l.filter p)
  | [], _, _, _ => by simp [dedupFirstAux]
  | x :: xs, s₁, s₂, h => by
    by_cases hp : p x = true
    · have hmem := h x hp
      by_cases hx : x ∈ s₁
      · have hx₂ : x ∈ s₂ := hmem.mp hx
        simp only [dedupFirstAux, if_pos hx, List.filter_cons, hp, if_pos hx₂,
          if_true]
        exact filter_dedupFirstAux p xs s₁ s₂ h
      · have hx₂ : x ∉ s₂ := fun hc => hx (hmem.mpr hc)
        have hstep : ∀ y, p y = true → (y ∈ s₁ ++ [x] ↔ y ∈ s₂ ++ [x]) := by
          intro y hy
          simp only [List.mem_append, List.mem_singleton]
          exact or_congr_left (h y hy)
        simp only [dedupFirstAux, if_neg hx, List.filter_cons, hp, if_neg hx₂,
          if_true]
        exact congrArg (x :: ·) (filter_dedupFirstAux p xs (s₁ ++ [x]) (s₂ ++ [x]) hstep)
    · have hfilter : (x :: xs).filter p = xs.filter p := by
        simp [List.filter_cons, hp]
      by_cases hx : x ∈ s₁
      · simp only [dedupFirstAux, if_pos hx, hfilter]
        exact filter_dedupFirstAux p xs s₁ s₂ h
      · have hstep : ∀ y, p y = true → (y ∈ s₁ ++ [x] ↔ y ∈ s₂) := by
        -- a y satisfying p cannot be x, since p x fails
          intro y hy
          simp only [List.mem_append, List.mem_singleton]
          constructor
          · rintro (hy₁ | rfl)
            · exact (h y hy).mp hy₁
            · exact absurd hy hp
          · intro hy₂
            exact Or.inl ((h y hy).mpr hy₂)
        simp only [dedupFirstAux, if_neg hx, hfilter, List.filter_cons, hp,
          if_false]
        exact filter_dedupFirstAux p xs (s₁ ++ [x]) s₂ hstep

/-- Filtering commutes with `dedupFirst`. -/
theorem dedupFirst_filter (p : Int → Bool) (l : List Int) :
    (dedupFirst l).filter p = dedupFirst (l.filter p) :=
  filter_dedupFirstAux p l [] [] (fun _ _ => Iff.rfl)

/-- Registering a sequence of settings yields exactly that sequence. -/
theorem registered_general_settings_eq (ds : List GeneralSetting) :
    registered_general_settings ds = ds := by
  have h : ∀ (l acc : List GeneralSetting),
      l.foldl (fun acc d =>
        register_general_setting acc d.name d.label d.panel d.fieldtype d.order) acc
        = acc ++ l := by
    intro l
    induction l with
    | nil => intro acc; simp
    | cons d rest ih =>
      intro acc
      simp only [List.foldl_cons, ih]
      simp [register_general_setting]
  simpa using h ds []

/-- The `get_panel_settings` accumulation loop is `List.filter`. -/
theorem get_panel_settings_foldl (l : List GeneralSetting) (p : Option String) :
    get_panel_settings l p = l.filter (fun s => decide (s.panel = p)) := by
  have h : ∀ (l acc : List GeneralSetting),
      l.foldl (fun payload setting =>
        if setting.panel = p then payload ++ [setting] else payload) acc
        = acc ++ l.filter (fun s => decide (s.panel = p)) := by
    intro l
    induction l with
    | nil => intro acc; simp
    | cons s rest ih =>
      intro acc
      by_cases hs : s.panel = p
      · simp [List.foldl_cons, ih, hs, List.filter_cons]
      · simp [List.foldl_cons, ih, hs, List.filter_cons]
  simpa [get_panel_settings] using h l []

/-- C4: for every sequence of registered general settings and every panel
name `p`, `get_panel_settings p` returns exactly the subset of registered
settings whose `panel` field equals `p`, in original registration order. -/
theorem get_panel_settings_eq_filter (ds : List GeneralSetting) (p : Option String) :
    get_panel_settings (registered_general_settings ds) p
      = ds.filter (fun s => decide (s.panel = p)) := by
  rw [registered_general_settings_eq, get_panel_settings_foldl]

/-- C1 counterexample: with a node of index `0` registered before a node of
null index, `emit_heat_data` keeps the zero-index node first (both map to the
sentinel `-1` because Python's `not x.node_index` is true for `0` as well as
`None`), while the ordering claimed by the specification would put the null
node strictly first; so the slot list is not "null first, then by index" and
is not independent of registration order. -/
theorem heat_slot_order_not_null_first :
    heat_slots [exNode0, exNodeNull] = [heatNodeSlot exNode0, heatNodeSlot exNodeNull] ∧
    spec_heat_slots [exNode0, exNodeNull]
      = [heatNodeSlot exNodeNull, heatNodeSlot exNode0] ∧
    heat_slots [exNode0, exNodeNull] ≠ spec_heat_slots [exNode0, exNodeNull] := by
  refine ⟨by decide, by decide, by decide⟩

/-- C1 amended: the slot list is the heat's nodes stably sorted by the key
`heatNodeSorter`, which maps a null node index and a zero node index alike to
the sentinel `-1` and every other index to itself; so null indices sort before
all positive indices but tie with index `0`, ties keeping registration order.
The sorted list is a permutation of the nodes, the sort is stable, and the
spec's example `[2, null, 0] ↦ [null, 0, 2]` still holds. -/
theorem heat_slots_sorted_stable_sentinel (l : List HeatNode) (a b : HeatNode)
    (hab : heatNodeLE a b) (hsub : List.Sublist [a, b] l) :
    (heatNodes_sorted l).Sorted heatNodeLE ∧
    (heatNodes_sorted l).Perm l ∧
    List.Sublist [a, b] (heatNodes_sorted l) ∧
    (∀ x : HeatNode, (x.node_index = none ∨ x.node_index = some 0) →
      heatNodeSorter x = -1) ∧
    (∀ (x : HeatNode) (i : Int), x.node_index = some i → i ≠ 0 →
      heatNodeSorter x = i) ∧
    heat_slots [exNode2, exNodeNull, exNode0]
      = [heatNodeSlot exNodeNull, heatNodeSlot exNode0, heatNodeSlot exNode2] := by
  refine ⟨List.sorted_insertionSort heatNodeLE l,
    List.perm_insertionSort heatNodeLE l,
    List.pair_sublist_insertionSort hab hsub, ?_, ?_, by decide⟩
  · rintro x (hx | hx) <;> simp [heatNodeSorter, hx]
  · intro x i hx hi
    simp [heatNodeSorter, hx, hi]

/-- C1 amended, witness: the amended theorem applied at the concrete two-node
list `[exNodeNull, exNode0]`, both hypotheses discharged by evaluation. -/
theorem heat_slots_sorted_stable_sentinel_witness :
    (heatNodes_sorted [exNodeNull, exNode0]).Sorted heatNodeLE ∧
    (heatNodes_sorted [exNodeNull, exNode0]).Perm [exNodeNull, exNode0] ∧
    List.Sublist [exNodeNull, exNode0] (heatNodes_sorted [exNodeNull, exNode0]) ∧
    (∀ x : HeatNode, (x.node_index = none ∨ x.node_index = some 0) →
      heatNodeSorter x = -1) ∧
    (∀ (x : HeatNode) (i : Int), x.node_index = some i → i ≠ 0 →
      heatNodeSorter x = i) ∧
    heat_slots [exNode2, exNodeNull, exNode0]
      = [heatNodeSlot exNodeNull, heatNodeSlot exNode0, heatNodeSlot exNode2] :=
  heat_slots_sorted_stable_sentinel [exNodeNull, exNode0] exNodeNull exNode0
    (by decide) (by decide)

/-- C2: evaluation of the embedded code at the failing input — a caller-only
(`'nobroadcast'`) request for result data issued outside any request context
(`sid = None`) is broadcast to every session by the `else` branch of
`emit_result_data_thread`, rather than being dropped with a warning as the
specification requires. -/
theorem emit_result_data_no_caller_broadcasts :
    emit_result_data ⟨true, false⟩ none = ResultDelivery.broadcastAll := by
  rfl

/-- C5: the IMD-rating frequency list equals the zero-filtered, first-seen
de-duplicated prefix of the active profile's frequency values (frequencies
are non-negative physical values, so the source's `val > 0` test is exactly
the spec's zero filter); the spec's example `[5800, 5800, 0, 5880, 0, 5800]`
yields `[5800, 5880]`; and with fewer than 3 distinct non-zero frequencies
the external jar is never invoked and the rating field is null. -/
theorem imdtabler_rating_freq_list_spec (freqs : List Int) (n : Nat)
    (jar : List String → Except String String)
    (hpos : ∀ v ∈ freqs, 0 ≤ v) :
    imd_fs_list freqs n
      = dedupFirst ((freqs.take n).filter (fun v => decide (v ≠ 0))) ∧
    imd_fs_list [5800, 5800, 0, 5880, 0, 5800] 6 = [5800, 5880] ∧
    ((imd_fs_list freqs n).length < 3 →
      emit_imdtabler_rating jar freqs n = ⟨false, none⟩) := by
  refine ⟨?_, by decide, ?_⟩
  · rw [imd_fs_list, dedupFirst_filter]
    congr 1
    apply List.filter_congr
    intro v hv
    have h0 : 0 ≤ v := hpos v (List.mem_of_mem_take hv)
    exact decide_eq_decide.mpr (by omega)
  · intro hlen
    have hlt : ¬ 2 < (imd_fs_list freqs n).length := by omega
    simp [emit_imdtabler_rating, List.length_map, hlt]

/-- C5 witness: the theorem applied at the spec's concrete example, where the
frequency list `[5800, 5880]` has fewer than 3 entries, so the jar is not
invoked and the rating is null. -/
theorem imdtabler_rating_freq_list_spec_witness :
    emit_imdtabler_rating (fun _ => Except.error "fail")
      [5800, 5800, 0, 5880, 0, 5800] 6 = ⟨false, none⟩ :=
  (imdtabler_rating_freq_list_spec [5800, 5800, 0, 5880, 0, 5800] 6
    (fun _ => Except.error "fail") (by decide)).2.2 (by decide)

/-- C8: when every invocation of the external IMD process fails (non-zero
exit, missing binary, timeout — all surfaced as `Except.error`), the
exception is caught: `emit_imdtabler_data` still produces its whole payload
with `table_data = None` and the other fields intact, and
`emit_imdtabler_rating` emits a null `imd_rating`; neither operation
propagates the failure (both remain total functions into payloads). -/
theorem imdtabler_failure_null_fields
    (jar : List String → Except String String) (e : String)
    (fs_list : List String) (ver : Option String)
    (freqs : List Int) (n : Nat)
    (hfail : ∀ l, jar l = Except.error e) :
    emit_imdtabler_data jar fs_list ver
      = ⟨" ".intercalate fs_list, none, ver⟩ ∧
    (emit_imdtabler_rating jar freqs n).imd_rating = none := by
  constructor
  · rw [emit_imdtabler_data]
    by_cases h : 2 < fs_list.length
    · simp [h, hfail]
    · simp [h]
  · rw [emit_imdtabler_rating]
    by_cases h : 2 < (imd_fs_list freqs n).length
    · simp [List.length_map, h, hfail]
    · simp [List.length_map, h]

/-- C8 witness: the theorem applied to a jar that always fails (missing
binary) on three distinct non-zero frequencies. -/
theorem imdtabler_failure_null_fields_witness :
    emit_imdtabler_data (fun _ => Except.error "missing binary")
        ["5800", "5880", "5645"] (some "v1")
      = ⟨" ".intercalate ["5800", "5880", "5645"], none, some "v1"⟩ ∧
    (emit_imdtabler_rating (fun _ => Except.error "missing binary")
        [5800, 5880, 5645] 3).imd_rating = none :=
  imdtabler_failure_null_fields (fun _ => Except.error "missing binary")
    "missing binary" ["5800", "5880", "5645"] (some "v1") [5800, 5880, 5645] 3
    (fun _ => rfl)

/-- C3 counterexample: `emit_phonetic_split` with a missing referenced pilot
produces no payload at all (the source raises `AttributeError` on
`pilot.phonetic`), refuting "no builder fails its entire payload because a
referenced pilot is missing". -/
theorem phonetic_split_missing_pilot_fails :
    emit_phonetic_split (fun _ => none) (fun _ => "zero") 7 0 10000 = none := by
  rfl

/-- C3 amended: `emit_phonetic_data` degrades gracefully — with a missing
pilot (and no node-index fallback) it still produces the whole payload with
the pilot, callsign and pilot_id fields null — but `emit_phonetic_split`
fails its entire payload when the referenced pilot is absent. -/
theorem phonetic_missing_pilot_behavior (get_pilot : Nat → Option Pilot)
    (freqs_b : List (Option String)) (freqs_c : List (Option Int))
    (freqs_f : List Int) (fmt_time : Int → String)
    (pilot_id : Nat) (lap_id lap_time : Int) (team_name : String)
    (team_laps : Int) (leader_flag node_finished : Bool)
    (split_id split_time : Int)
    (hmiss : get_pilot pilot_id = none) :
    emit_phonetic_data get_pilot freqs_b freqs_c freqs_f fmt_time pilot_id
        lap_id lap_time team_name team_laps leader_flag node_finished none
      = some { lap := lap_id, raw_time := lap_time,
               phonetic := fmt_time lap_time, team_name := team_name,
               team_laps := team_laps, leader_flag := leader_flag,
               node_finished := node_finished,
               pilot := none, callsign := none, pilot_id := none } ∧
    emit_phonetic_split get_pilot fmt_time pilot_id split_id split_time
      = none := by
  constructor
  · rw [emit_phonetic_data, hmiss]
  · rw [emit_phonetic_split, hmiss]

/-- C3 amended, witness: the amended theorem at a concrete lap with an empty
pilot store. -/
theorem phonetic_missing_pilot_behavior_witness :
    emit_phonetic_data (fun _ => none) [] [] [] (fun _ => "one two") 4
        3 61230 "Team A" 9 true false none
      = some { lap := 3, raw_time := 61230, phonetic := "one two",
               team_name := "Team A", team_laps := 9, leader_flag := true,
               node_finished := false,
               pilot := none, callsign := none, pilot_id := none } ∧
    emit_phonetic_split (fun _ => none) (fun _ => "one two") 4 1 30500
      = none :=
  phonetic_missing_pilot_behavior (fun _ => none) [] [] [] (fun _ => "one two")
    4 3 61230 "Team A" 9 true false 1 30500 rfl

/-- C6: every broadcast-mode `emit_priority_message` call publishes exactly
one domain event — `MESSAGE_INTERRUPT` when the interrupt flag is set,
`MESSAGE_STANDARD` otherwise, never both — whose data carries the same
message and interrupt values as the wire payload, plus the originating
caller. -/
theorem priority_message_single_event (message : String) (interrupt : Bool)
    (caller : Option String) (params : Params)
    (hb : params.nobroadcast = false) :
    (emit_priority_message message interrupt caller params).events
      = [(if interrupt then Evt.MESSAGE_INTERRUPT else Evt.MESSAGE_STANDARD,
          { message := (emit_priority_message message interrupt caller params).payload.message,
            interrupt := (emit_priority_message message interrupt caller params).payload.interrupt,
            caller := caller })] ∧
    (emit_priority_message message interrupt caller params).events.length = 1 ∧
    ¬((Evt.MESSAGE_INTERRUPT, Evt.MESSAGE_STANDARD) ∈
        ((emit_priority_message message interrupt caller params).events.map Prod.fst).product
          ((emit_priority_message message interrupt caller params).events.map Prod.fst)) := by
  cases interrupt <;> simp [emit_priority_message, hb, List.product]

/-- C6 witness: the theorem applied at a concrete interrupting broadcast
message. -/
theorem priority_message_single_event_witness :
    (emit_priority_message "race stopped" true (some "sid1") ⟨false, false⟩).events
      = [(if true then Evt.MESSAGE_INTERRUPT else Evt.MESSAGE_STANDARD,
          { message := (emit_priority_message "race stopped" true (some "sid1") ⟨false, false⟩).payload.message,
            interrupt := (emit_priority_message "race stopped" true (some "sid1") ⟨false, false⟩).payload.interrupt,
            caller := some "sid1" })] ∧
    (emit_priority_message "race stopped" true (some "sid1") ⟨false, false⟩).events.length = 1 ∧
    ¬((Evt.MESSAGE_INTERRUPT, Evt.MESSAGE_STANDARD) ∈
        ((emit_priority_message "race stopped" true (some "sid1") ⟨false, false⟩).events.map Prod.fst).product
          ((emit_priority_message "race stopped" true (some "sid1") ⟨false, false⟩).events.map Prod.fst)) :=
  priority_message_single_event "race stopped" true (some "sid1") ⟨false, false⟩ rfl

/-- C9: every broadcast-mode `emit_first_pass_registered` call with node
index `n` sends one message on the `first_pass_registered` topic addressed to
all sessions with payload `node_index = n`, and triggers exactly one
`RACE_FIRST_PASS` domain event carrying the same node index. -/
theorem first_pass_broadcast_and_event (n : Int) (params : Params)
    (hb : params.nobroadcast = false) :
    (emit_first_pass_registered n params).wire_topic = "first_pass_registered" ∧
    (emit_first_pass_registered n params).addressing = Addressing.ALL ∧
    (emit_first_pass_registered n params).wire_payload = { node_index := n } ∧
    (emit_first_pass_registered n params).events
      = [(Evt.RACE_FIRST_PASS, (emit_first_pass_registered n params).wire_payload)] := by
  refine ⟨rfl, ?_, rfl, rfl⟩
  simp [emit_first_pass_registered, resolveTwoWay, hb]

/-- C9 witness: the theorem applied at node index 3 with default params. -/
theorem first_pass_broadcast_and_event_witness :
    (emit_first_pass_registered 3 ⟨false, false⟩).wire_topic = "first_pass_registered" ∧
    (emit_first_pass_registered 3 ⟨false, false⟩).addressing = Addressing.ALL ∧
    (emit_first_pass_registered 3 ⟨false, false⟩).wire_payload = { node_index := 3 } ∧
    (emit_first_pass_registered 3 ⟨false, false⟩).events
      = [(Evt.RACE_FIRST_PASS, (emit_first_pass_registered 3 ⟨false, false⟩).wire_payload)] :=
  first_pass_broadcast_and_event 3 ⟨false, false⟩ rfl

/-- C10: whatever addressing parameters an `emit_pilot_data` call is given
(including `'nobroadcast'` and `'noself'`), its message list ends with the
heat-data message produced by the parameterless `emit_heat_data()` call, and
that message is broadcast to all sessions; exactly one heat-data message is
sent per call. -/
theorem emit_pilot_data_always_broadcasts_heat_data (params : Params) :
    (emit_pilot_data_dispatch params).getLast?
      = some { topic := "heat_data", addressing := Addressing.ALL } ∧
    ((emit_pilot_data_dispatch params).filter
        (fun m => decide (m.topic = "heat_data"))).length = 1 := by
  cases params with
  | mk nb ns => cases nb <;> cases ns <;> decide

/-- Two strings with equal code-point sequences are equal. -/
theorem string_eq_of_data {a b : String} (h : a.data = b.data) : a = b := by
  cases a
  cases b
  exact congrArg String.mk h

/-- Trichotomy of CPython string comparison. -/
theorem pyStrLT_trichotomy (a b : String) : pyStrLT a b ∨ a = b ∨ pyStrLT b a := by
  have ht := @trichotomous (List Char) (List.Lex (· < ·)) _ a.data b.data
  rcases ht with h | h | h
  · exact Or.inl h
  · exact Or.inr (Or.inl (string_eq_of_data h))
  · exact Or.inr (Or.inr h)

/-- Transitivity of CPython string comparison. -/
theorem pyStrLT_trans {a b c : String} (h1 : pyStrLT a b) (h2 : pyStrLT b c) :
    pyStrLT a c :=
  @trans_of (List Char) (List.Lex (· < ·)) _ _ _ _ h1 h2

/-- The pair comparison is total. -/
theorem strPairLE_total (a b : String × String) : strPairLE a b ∨ strPairLE b a := by
  rcases pyStrLT_trichotomy a.1 b.1 with h | h | h
  · exact Or.inl (Or.inl h)
  · rcases pyStrLT_trichotomy a.2 b.2 with h2 | h2 | h2
    · exact Or.inl (Or.inr ⟨h, Or.inl h2⟩)
    · exact Or.inl (Or.inr ⟨h, Or.inr h2⟩)
    · exact Or.inr (Or.inr ⟨h.symm, Or.inl h2⟩)
  · exact Or.inr (Or.inl h)

/-- The pair comparison is transitive. -/
theorem strPairLE_trans {a b c : String × String}
    (h1 : strPairLE a b) (h2 : strPairLE b c) : strPairLE a c := by
  rcases h1 with h1 | ⟨e1, h1⟩
  · rcases h2 with h2 | ⟨e2, h2⟩
    · exact Or.inl (pyStrLT_trans h1 h2)
    · exact Or.inl (e2 ▸ h1)
  · rcases h2 with h2 | ⟨e2, h2⟩
    · exact Or.inl (e1 ▸ h2)
    · refine Or.inr ⟨e1.trans e2, ?_⟩
      rcases h1 with h1 | h1
      · rcases h2 with h2 | h2
        · exact Or.inl (pyStrLT_trans h1 h2)
        · exact Or.inl (h2 ▸ h1)
      · rcases h2 with h2 | h2
        · exact Or.inl (h1 ▸ h2)
        · exact Or.inr (h1.trans h2)

instance (m : String) : IsTotal PilotRow (pilotRowLE m) :=
  ⟨fun a b => strPairLE_total (pilotSortKey m a) (pilotSortKey m b)⟩

instance (m : String) : IsTrans PilotRow (pilotRowLE m) :=
  ⟨fun _ _ _ h1 h2 => strPairLE_trans h1 h2⟩

/-- The accumulation loop of `emit_pilot_data` always leaves the list sorted:
each iteration ends in a full (stable) sort of the accumulated list. -/
theorem sorted_pilots_foldl (m : String) (f : Pilot → PilotRow) :
    ∀ (ps : List Pilot) (acc : List PilotRow), acc.Sorted (pilotRowLE m) →
      (ps.foldl (fun acc p => (acc ++ [f p]).insertionSort (pilotRowLE m)) acc).Sorted
        (pilotRowLE m)
  | [], _, h => h
  | p :: rest, acc, _ =>
    sorted_pilots_foldl m f rest ((acc ++ [f p]).insertionSort (pilotRowLE m))
      (List.sorted_insertionSort (pilotRowLE m) _)

/-- C7: the pilot list emitted by `emit_pilot_data` is sorted by the
configured two-key tie-break pair (`(callsign, name)` when the `pilotSort`
option is `'callsign'`, otherwise `(name, callsign)`), the comparison is a
total and transitive order, the sort is stable (order-respecting pairs keep
their relative order), and sorting an already-sorted pilot list changes
nothing. -/
theorem pilot_list_sorted_total_idempotent (pilotSort : String)
    (team_names : List String) (attr_vals : Nat → List (String × String))
    (locked : Nat → Bool) (led_enabled : Bool) (pilots : List Pilot)
    (l : List PilotRow) (hl : l.Sorted (pilotRowLE pilotSort))
    (a b : PilotRow) (xs : List PilotRow)
    (hab : pilotRowLE pilotSort a b) (hsub : List.Sublist [a, b] xs) :
    (emit_pilot_data_pilots pilotSort team_names attr_vals locked led_enabled
        pilots).Sorted (pilotRowLE pilotSort) ∧
    (∀ x, pilotSortKey "callsign" x = (x.callsign, x.name)) ∧
    (pilotSort ≠ "callsign" → ∀ x, pilotSortKey pilotSort x = (x.name, x.callsign)) ∧
    (∀ u v : PilotRow, pilotRowLE pilotSort u v ∨ pilotRowLE pilotSort v u) ∧
    (∀ u v w : PilotRow, pilotRowLE pilotSort u v → pilotRowLE pilotSort v w →
      pilotRowLE pilotSort u w) ∧
    List.Sublist [a, b] (xs.insertionSort (pilotRowLE pilotSort)) ∧
    l.insertionSort (pilotRowLE pilotSort) = l := by
  refine ⟨?_, fun x => rfl, ?_, fun u v => total_of _ u v,
    fun u v w h1 h2 => trans_of _ h1 h2,
    List.pair_sublist_insertionSort hab hsub, hl.insertionSort_eq⟩
  · exact sorted_pilots_foldl pilotSort
      (fun p => pilot_row team_names (attr_vals p.id) led_enabled (locked p.id) p)
      pilots [] List.sorted_nil
  · intro h x
    simp [pilotSortKey, h]

/-- C7 witness: the theorem applied in `'callsign'` mode to two concrete
pilots, with the already-sorted list, the comparison fact and the sublist
fact all discharged by evaluation. -/
theorem pilot_list_sorted_total_idempotent_witness :
    (emit_pilot_data_pilots "callsign" ["A", "B"] (fun _ => []) (fun _ => false)
        false [exPilotBob, exPilotAnn]).Sorted (pilotRowLE "callsign") ∧
    (∀ x, pilotSortKey "callsign" x = (x.callsign, x.name)) ∧
    ((("callsign" : String) ≠ "callsign") → ∀ x, pilotSortKey "callsign" x = (x.name, x.callsign)) ∧
    (∀ u v : PilotRow, pilotRowLE "callsign" u v ∨ pilotRowLE "callsign" v u) ∧
    (∀ u v w : PilotRow, pilotRowLE "callsign" u v → pilotRowLE "callsign" v w →
      pilotRowLE "callsign" u w) ∧
    List.Sublist [exRowAnn, exRowBob]
      ([exRowAnn, exRowBob].insertionSort (pilotRowLE "callsign")) ∧
    [exRowAnn, exRowBob].insertionSort (pilotRowLE "callsign") = [exRowAnn, exRowBob] :=
  pilot_list_sorted_total_idempotent "callsign" ["A", "B"] (fun _ => [])
    (fun _ => false) false [exPilotBob, exPilotAnn] [exRowAnn, exRowBob]
    (by decide) exRowAnn exRowBob [exRowAnn, exRowBob] (by decide) (by decide)

end RHUI
